import Mathlib

/-!
# flutter_pcm_sound, Linux backend: the ALSA device session

A shallow embedding of `linux/flutter_pcm_sound_plugin.cc`.

* The plugin object is a record; the operations pass it explicitly and return
  the updated record.
* ALSA is an external device.  What it answers during one method call is an
  input (`Device`); what the plugin asks of it is an output (the list of
  `AlsaCall`s, in program order).
* Notifications sent over the method channel are an output as well (the list
  of `Invocation`s).
* C integer conversions are written out (`toInt32`, `toUInt32`, `toSizeT`).
  An integer division by zero stops the process; operations that can reach one
  return `Option`, with `none` standing for that fault.
* The `g_print` diagnostics are not part of the model.
-/

namespace FlutterPcmSound

/-! ## Machine integers -/

/-- Conversion to a C `int` (32 bits, two's complement). -/
def toInt32 (x : Int) : Int := (x + 2147483648) % 4294967296 - 2147483648

/-- Conversion to a C `unsigned int` (32 bits). -/
def toUInt32 (x : Int) : Nat := (x % 4294967296).toNat

/-- Conversion to `size_t` (64 bits). -/
def toSizeT (x : Int) : Nat := (x % 18446744073709551616).toNat

/-! ## Values of the method-channel codec (`FlValue`) -/

/-- Structured values carried by method calls: the scalar, byte-list and
string-keyed map cases of `FlValue`. -/
inductive FlValue where
  | null
  | bool (b : Bool)
  | int (i : Int)
  | string (s : String)
  | uint8_list (data : List (Fin 256))
  | map (entries : List (String × FlValue))

/-- The accessor `fl_value_lookup_string`: the value stored under a string key of a map;
`none` (a null pointer) when the value is not a map or has no such key. -/
def fl_value_lookup_string (self : FlValue) (key : String) : Option FlValue :=
  match self with
  | .map entries => (entries.find? (fun e => e.1 == key)).map (fun e => e.2)
  | _ => none

/-- The accessor `fl_value_get_int`: the 64-bit integer of an integer value, 0 for a value
of another type. -/
def fl_value_get_int (self : FlValue) : Int :=
  match self with
  | .int i => i
  | _ => 0

/-- The accessor `fl_value_get_uint8_list`: the bytes of a byte list; a null pointer for a
null pointer or a value of another type. -/
def fl_value_get_uint8_list (self : Option FlValue) : Option (List (Fin 256)) :=
  match self with
  | some (.uint8_list data) => some data
  | _ => none

/-- The accessor `fl_value_get_length`: the number of elements of a list or map value, 0 for
a null pointer or a value without a length. -/
def fl_value_get_length (self : Option FlValue) : Nat :=
  match self with
  | some (.uint8_list data) => data.length
  | some (.map entries) => entries.length
  | _ => 0

/-! ## Responses, device calls, notifications -/

/-- The three kinds of `FlMethodResponse`. -/
inductive FlMethodResponse where
  | success (result : FlValue)
  | error (code : String) (message : String) (details : Option FlValue)
  | not_implemented

/-- A call made to ALSA, with the arguments that vary.  Handles are numbered. -/
inductive AlsaCall where
  | pcm_open
  | hw_params_any (pcm : Nat)
  | hw_params_set_access (pcm : Nat)
  | hw_params_set_format (pcm : Nat)
  | hw_params_set_channels (pcm : Nat) (val : Nat)
  | hw_params_set_rate (pcm : Nat) (val : Nat)
  | hw_params (pcm : Nat)
  | pcm_close (pcm : Nat)
  | pcm_writei (pcm : Nat) (buffer : Option (List (Fin 256))) (size : Nat)
  | pcm_recover (pcm : Nat) (err : Int)
  | pcm_drain (pcm : Nat)
  deriving DecidableEq

/-- A method invoked on the Dart side through `fl_method_channel_invoke_method`
(no reply callback is registered). -/
structure Invocation where
  channel : Nat
  method : String
  args : FlValue

/-- What ALSA answers during one method call.  `snd_pcm_open` stores
`open_handle` through its first argument when it succeeds and stores nothing
when it fails. -/
structure Device where
  open_result : Int
  open_handle : Nat
  hw_params_result : Int
  writei_first : Int
  recover_result : Int
  writei_retry : Int

/-- Text produced by library functions: `snd_strerror` and
`fl_value_to_string`. -/
structure Lib where
  snd_strerror : Int → String
  fl_value_to_string : FlValue → String

/-! ## The plugin -/

/-- The object `struct _FlutterPcmSoundPlugin`; a null pointer is `none`. -/
structure FlutterPcmSoundPlugin where
  handle : Option Nat
  sample_rate : Int
  channels : Int
  channel : Option Nat

/-- Result of one operation: the response, the plugin afterwards, the ALSA
calls made and the notifications sent, both in program order. -/
structure Outcome where
  response : FlMethodResponse
  self : FlutterPcmSoundPlugin
  alsa : List AlsaCall
  invoked : List Invocation

/-- The instance initialiser `flutter_pcm_sound_plugin_init`: it clears the
handle and touches no other field. -/
def flutter_pcm_sound_plugin_init (self : FlutterPcmSoundPlugin) : FlutterPcmSoundPlugin :=
  { self with handle := none }

/-- The function `setup_alsa`.  The results of the `snd_pcm_hw_params_set_*`
calls are not looked at by the code and have no place in `Device`. -/
def setup_alsa (lib : Lib) (self : FlutterPcmSoundPlugin) (args : FlValue) (dev : Device) :
    Outcome :=
  match fl_value_lookup_string args "sample_rate", fl_value_lookup_string args "num_channels" with
  | some sample_rate_value, some channel_value =>
    let self1 : FlutterPcmSoundPlugin :=
      { self with
        sample_rate := toInt32 (fl_value_get_int sample_rate_value)
        channels := toInt32 (fl_value_get_int channel_value) }
    if dev.open_result < 0 then
      { response := .error "ALSA_ERROR" (lib.snd_strerror dev.open_result) none
        self := self1
        alsa := [.pcm_open]
        invoked := [] }
    else
      let h := dev.open_handle
      let self2 : FlutterPcmSoundPlugin := { self1 with handle := some h }
      let calls : List AlsaCall :=
        [.pcm_open, .hw_params_any h, .hw_params_set_access h, .hw_params_set_format h,
         .hw_params_set_channels h (toUInt32 self2.channels),
         .hw_params_set_rate h (toUInt32 self2.sample_rate), .hw_params h]
      if dev.hw_params_result < 0 then
        { response := .error "ALSA_ERROR" (lib.snd_strerror dev.hw_params_result) none
          self := { self2 with handle := none }
          alsa := calls ++ [.pcm_close h]
          invoked := [] }
      else
        { response := .success (.bool true)
          self := self2
          alsa := calls
          invoked := [] }
  | _, _ =>
    { response :=
        .error "DEBUG" ("Missing args. Setup called with args: " ++ lib.fl_value_to_string args)
          none
      self := self
      alsa := []
      invoked := [] }

/-- The expression `length / (2 * self->channels)`: the product is an `int`
(32 bits, wrapping), converted to `size_t` for the unsigned division; `none`
when the divisor is zero. -/
def frames_requested (length : Nat) (channels : Int) : Option Nat :=
  if toSizeT (toInt32 (2 * channels)) = 0 then none
  else some (length / toSizeT (toInt32 (2 * channels)))

/-- The end of `feed_alsa`: the notification and the success response. -/
def feed_finish (self : FlutterPcmSoundPlugin) (frames : Int) (alsa : List AlsaCall) : Outcome :=
  { response := .success (.int frames)
    self := self
    alsa := alsa
    invoked :=
      match self.channel with
      | some ch =>
        [{ channel := ch, method := "OnFeedSamples"
           args := .map [("remaining_frames", .int 0)] }]
      | none => [] }

/-- The function `feed_alsa`.  The first write's result is narrowed to `int`
for `snd_pcm_recover`, whose `int` result is widened to the frame type and
narrowed again for `snd_strerror`. -/
def feed_alsa (lib : Lib) (self : FlutterPcmSoundPlugin) (args : FlValue) (dev : Device) :
    Option Outcome :=
  match self.handle with
  | none =>
    some { response := .error "NOT_INITIALIZED" "ALSA not initialized" none
           self := self
           alsa := []
           invoked := [] }
  | some handle =>
    let buffer := fl_value_lookup_string args "buffer"
    let data := fl_value_get_uint8_list buffer
    let length := fl_value_get_length buffer
    match frames_requested length self.channels with
    | none => none
    | some size1 =>
      if dev.writei_first < 0 then
        let first : List AlsaCall :=
          [.pcm_writei handle data size1, .pcm_recover handle (toInt32 dev.writei_first)]
        if dev.recover_result < 0 then
          some { response :=
                   .error "WRITE_ERROR" (lib.snd_strerror (toInt32 dev.recover_result)) none
                 self := self
                 alsa := first
                 invoked := [] }
        else
          match frames_requested length self.channels with
          | none => none
          | some size2 =>
            some (feed_finish self dev.writei_retry (first ++ [.pcm_writei handle data size2]))
      else
        some (feed_finish self dev.writei_first [.pcm_writei handle data size1])

/-- The function `release_alsa`. -/
def release_alsa (self : FlutterPcmSoundPlugin) : Outcome :=
  match self.handle with
  | some h =>
    { response := .success (.bool true)
      self := { self with handle := none }
      alsa := [.pcm_drain h, .pcm_close h]
      invoked := [] }
  | none =>
    { response := .success (.bool true)
      self := self
      alsa := []
      invoked := [] }

/-- Result of one dispatched method call: the responses passed to
`fl_method_call_respond`, and the effects of the operation. -/
structure Dispatched where
  responded : List FlMethodResponse
  self : FlutterPcmSoundPlugin
  alsa : List AlsaCall
  invoked : List Invocation

/-- The last statement of the dispatcher: respond with the operation's
response. -/
def respond (o : Outcome) : Dispatched :=
  { responded := [o.response], self := o.self, alsa := o.alsa, invoked := o.invoked }

/-- The dispatcher `flutter_pcm_sound_plugin_handle_method_call`; `strcmp`
compares the whole name. -/
def flutter_pcm_sound_plugin_handle_method_call (lib : Lib) (self : FlutterPcmSoundPlugin)
    (method : String) (args : FlValue) (dev : Device) : Option Dispatched :=
  if method = "setLogLevel" then
    some (respond ⟨.success (.bool true), self, [], []⟩)
  else if method = "setFeedThreshold" then
    some (respond ⟨.success (.bool true), self, [], []⟩)
  else if method = "setup" then
    some (respond (setup_alsa lib self args dev))
  else if method = "feed" then
    (feed_alsa lib self args dev).map respond
  else if method = "release" then
    some (respond (release_alsa self))
  else
    some (respond ⟨.not_implemented, self, [], []⟩)

/-- The handles passed to `snd_pcm_close` by a list of ALSA calls, in order. -/
def closed_handles : List AlsaCall → List Nat
  | [] => []
  | .pcm_close h :: rest => h :: closed_handles rest
  | _ :: rest => closed_handles rest

/-! ## Sequences of method calls -/

/-- One method call reaching the dispatcher, with what the device answers
during it. -/
structure Call where
  method : String
  args : FlValue
  dev : Device

/-- A dispatched call together with what its dispatch did. -/
structure Event where
  call : Call
  result : Dispatched

/-- Dispatch the calls in order, each on the plugin left by the one before.
The result is the final plugin and the history of the calls; `none` when a
call stops the process. -/
def run (lib : Lib) :
    FlutterPcmSoundPlugin → List Call → Option (FlutterPcmSoundPlugin × List Event)
  | self, [] => some (self, [])
  | self, c :: rest =>
    match flutter_pcm_sound_plugin_handle_method_call lib self c.method c.args c.dev with
    | none => none
    | some d =>
      match run lib d.self rest with
      | none => none
      | some (final, events) => some (final, ⟨c, d⟩ :: events)

/-- Whether a response is a success response. -/
def is_success : FlMethodResponse → Bool
  | .success _ => true
  | _ => false

/-- The event is a `setup` that was answered with success. -/
def setup_succeeded (e : Event) : Bool :=
  e.call.method == "setup" && e.result.responded.any is_success

/-- The event is a dispatched `release`. -/
def release_dispatched (e : Event) : Bool :=
  e.call.method == "release"

/-- Reading a history in order: an `opens` event sets the flag, a `closes`
event that is not an `opens` event clears it, any other event keeps it. -/
def latch (opens closes : Event → Bool) : Bool → List Event → Bool
  | flag, [] => flag
  | flag, e :: rest =>
    latch opens closes (if opens e then true else if closes e then false else flag) rest

/-- The session invariant as the spec words it: some `setup` in the history
succeeded and no `release` has been dispatched since the last successful
`setup`. -/
def session_open_as_claimed (events : List Event) : Bool :=
  latch setup_succeeded release_dispatched false events

/-- The callers' protocol for `setup` (a session is released before it is
configured again): along the run of the calls from `self`, every `setup` is
dispatched on a plugin whose handle is absent.  A run that stops is not looked
at beyond the call that stops it. -/
def setup_on_closed_only (lib : Lib) : FlutterPcmSoundPlugin → List Call → Bool
  | _, [] => true
  | self, c :: rest =>
    (c.method != "setup" || self.handle.isNone) &&
      match flutter_pcm_sound_plugin_handle_method_call lib self c.method c.args c.dev with
      | none => true
      | some d => setup_on_closed_only lib d.self rest

/-! ## Sample inputs -/

/-- A library whose error text is the decimal error number. -/
def sample_lib : Lib :=
  { snd_strerror := fun e => toString e, fl_value_to_string := fun _ => "args" }

/-- A configured stereo session at 44100 Hz with the method channel set. -/
def stereo_session : FlutterPcmSoundPlugin :=
  { handle := some 1, sample_rate := 44100, channels := 2, channel := some 0 }

/-- A device on which every call succeeds, and a write accepts 2 frames. -/
def good_device : Device :=
  { open_result := 0, open_handle := 1, hw_params_result := 0,
    writei_first := 2, recover_result := 0, writei_retry := 2 }

/-- Nine bytes of samples. -/
def nine_bytes : List (Fin 256) := [0, 1, 2, 3, 4, 5, 6, 7, 8]

/-- Arguments of a `feed` call carrying nine bytes. -/
def feed_args : FlValue := .map [("buffer", .uint8_list nine_bytes)]

/-- Arguments of a complete `setup` call. -/
def setup_args : FlValue := .map [("sample_rate", .int 44100), ("num_channels", .int 2)]

/-! ## Theorems -/

/-- C1: when the device handle is absent, `feed` answers the error
`NOT_INITIALIZED`, makes no ALSA call, sends no notification and leaves the
plugin as it was; the dispatcher passes that on as its one response. -/
theorem feed_without_handle (lib : Lib) (self : FlutterPcmSoundPlugin) (args : FlValue)
    (dev : Device) (h : self.handle = none) :
    feed_alsa lib self args dev =
        some { response := .error "NOT_INITIALIZED" "ALSA not initialized" none
               self := self, alsa := [], invoked := [] } ∧
      flutter_pcm_sound_plugin_handle_method_call lib self "feed" args dev =
        some { responded := [.error "NOT_INITIALIZED" "ALSA not initialized" none]
               self := self, alsa := [], invoked := [] } := by
  have hf : feed_alsa lib self args dev =
      some { response := .error "NOT_INITIALIZED" "ALSA not initialized" none
             self := self, alsa := [], invoked := [] } := by
    unfold feed_alsa
    rw [h]
  refine ⟨hf, ?_⟩
  unfold flutter_pcm_sound_plugin_handle_method_call
  rw [hf]
  simp [respond]

/-- The freshly constructed plugin has no handle, and a `feed` on it is
answered `NOT_INITIALIZED` without touching the device. -/
theorem feed_without_handle_witness :
    (flutter_pcm_sound_plugin_init ⟨some 7, 0, 0, some 0⟩).handle = none ∧
      (feed_alsa sample_lib (flutter_pcm_sound_plugin_init ⟨some 7, 0, 0, some 0⟩) feed_args
            good_device =
          some { response := .error "NOT_INITIALIZED" "ALSA not initialized" none
                 self := flutter_pcm_sound_plugin_init ⟨some 7, 0, 0, some 0⟩
                 alsa := [], invoked := [] } ∧
        flutter_pcm_sound_plugin_handle_method_call sample_lib
            (flutter_pcm_sound_plugin_init ⟨some 7, 0, 0, some 0⟩) "feed" feed_args good_device =
          some { responded := [.error "NOT_INITIALIZED" "ALSA not initialized" none]
                 self := flutter_pcm_sound_plugin_init ⟨some 7, 0, 0, some 0⟩
                 alsa := [], invoked := [] }) :=
  ⟨rfl, feed_without_handle sample_lib _ feed_args good_device rfl⟩

/-- C2: when `sample_rate` or `num_channels` is missing from the arguments,
`setup` answers an error response (code `DEBUG`, the message quoting the
argument map), makes no ALSA call, and leaves the plugin, with its handle,
sample rate and channel count, as it was. -/
theorem setup_missing_args (lib : Lib) (self : FlutterPcmSoundPlugin) (args : FlValue)
    (dev : Device)
    (h : fl_value_lookup_string args "sample_rate" = none ∨
      fl_value_lookup_string args "num_channels" = none) :
    setup_alsa lib self args dev =
      { response :=
          .error "DEBUG" ("Missing args. Setup called with args: " ++ lib.fl_value_to_string args)
            none
        self := self, alsa := [], invoked := [] } := by
  unfold setup_alsa
  rcases h with h | h
  · rw [h]
  · rw [h]
    cases fl_value_lookup_string args "sample_rate" <;> rfl

/-- A `setup` carrying `sample_rate` only is answered with the error and opens
no device. -/
theorem setup_missing_args_witness :
    (fl_value_lookup_string (.map [("sample_rate", .int 44100)]) "sample_rate" = none ∨
        fl_value_lookup_string (.map [("sample_rate", .int 44100)]) "num_channels" = none) ∧
      setup_alsa sample_lib stereo_session (.map [("sample_rate", .int 44100)]) good_device =
        { response :=
            .error "DEBUG"
              ("Missing args. Setup called with args: " ++
                sample_lib.fl_value_to_string (.map [("sample_rate", .int 44100)]))
              none
          self := stereo_session, alsa := [], invoked := [] } :=
  ⟨Or.inr (by simp [fl_value_lookup_string]),
    setup_missing_args sample_lib stereo_session _ good_device
      (Or.inr (by simp [fl_value_lookup_string]))⟩

/-- C6: `release` always answers success(true) and leaves the handle absent,
draining and then closing the device once when a handle was present and
making no ALSA call otherwise; a second `release` right after answers
success(true), makes no ALSA call and leaves the plugin as the first left
it. -/
theorem release_idempotent (self : FlutterPcmSoundPlugin) :
    (release_alsa self).response = .success (.bool true) ∧
      (release_alsa self).self.handle = none ∧
      (release_alsa self).self.sample_rate = self.sample_rate ∧
      (release_alsa self).self.channels = self.channels ∧
      (release_alsa self).self.channel = self.channel ∧
      (release_alsa self).alsa =
        (match self.handle with
          | some h => [.pcm_drain h, .pcm_close h]
          | none => []) ∧
      (release_alsa self).invoked = [] ∧
      release_alsa (release_alsa self).self =
        { response := .success (.bool true), self := (release_alsa self).self
          alsa := [], invoked := [] } := by
  obtain ⟨handle, rate, channels, channel⟩ := self
  cases handle <;> simp [release_alsa]

/-- C8: a method name other than the five recognised ones gets exactly one
response, the not-implemented response; no ALSA call is made, no notification
is sent and the plugin is unchanged. -/
theorem unknown_method_not_implemented (lib : Lib) (self : FlutterPcmSoundPlugin)
    (method : String) (args : FlValue) (dev : Device)
    (h1 : method ≠ "setLogLevel") (h2 : method ≠ "setFeedThreshold") (h3 : method ≠ "setup")
    (h4 : method ≠ "feed") (h5 : method ≠ "release") :
    flutter_pcm_sound_plugin_handle_method_call lib self method args dev =
      some { responded := [.not_implemented], self := self, alsa := [], invoked := [] } := by
  simp [flutter_pcm_sound_plugin_handle_method_call, h1, h2, h3, h4, h5, respond]

/-- The method name `pause` is answered not-implemented. -/
theorem unknown_method_not_implemented_witness :
    flutter_pcm_sound_plugin_handle_method_call sample_lib stereo_session "pause" .null
        good_device =
      some { responded := [.not_implemented], self := stereo_session, alsa := [], invoked := [] } :=
  unknown_method_not_implemented sample_lib stereo_session "pause" .null good_device
    (by decide) (by decide) (by decide) (by decide) (by decide)

/-- For a channel count of at least 1 whose double fits an `int`, the divisor
of the frame computation is twice the channel count. -/
theorem divisor_of_valid_channels (c : Int) (hc : 1 ≤ c) (h32 : 2 * c ≤ 2147483647) :
    toSizeT (toInt32 (2 * c)) = (2 * c).toNat := by
  unfold toSizeT toInt32
  omega

/-- With a non-zero divisor the frame computation is the floor division. -/
theorem frames_requested_of_ne_zero (length : Nat) (c : Int)
    (hd : toSizeT (toInt32 (2 * c)) ≠ 0) :
    frames_requested length c = some (length / toSizeT (toInt32 (2 * c))) := by
  simp [frames_requested, hd]

/-- C3: on a configured session with at least one channel (and twice the
channel count within `int`), a `feed` of a byte list of length L asks the
device for floor(L / (2 * channels)) frames, in the first write and in the
retry alike.  The divisor is twice the channel count and not zero, the frames
asked for cover at most L bytes, and an error response can only come from the
device (a failed write followed by a failed recovery), never from the length
of the buffer. -/
theorem feed_requests_floor_frames (lib : Lib) (self : FlutterPcmSoundPlugin) (args : FlValue)
    (dev : Device) (h : Nat) (data : List (Fin 256))
    (hh : self.handle = some h) (hc : 1 ≤ self.channels)
    (h32 : 2 * self.channels ≤ 2147483647)
    (hb : fl_value_lookup_string args "buffer" = some (.uint8_list data)) :
    toSizeT (toInt32 (2 * self.channels)) = (2 * self.channels).toNat ∧
      (2 * self.channels).toNat ≠ 0 ∧
      data.length / (2 * self.channels).toNat * (2 * self.channels).toNat ≤ data.length ∧
      ∃ out, feed_alsa lib self args dev = some out ∧
        out.alsa =
          (if dev.writei_first < 0 then
            if dev.recover_result < 0 then
              [.pcm_writei h (some data) (data.length / (2 * self.channels).toNat),
               .pcm_recover h (toInt32 dev.writei_first)]
            else
              [.pcm_writei h (some data) (data.length / (2 * self.channels).toNat),
               .pcm_recover h (toInt32 dev.writei_first),
               .pcm_writei h (some data) (data.length / (2 * self.channels).toNat)]
          else [.pcm_writei h (some data) (data.length / (2 * self.channels).toNat)]) ∧
        (∀ code message details, out.response = .error code message details →
          dev.writei_first < 0 ∧ dev.recover_result < 0) := by
  have hdiv := divisor_of_valid_channels self.channels hc h32
  have hne : (2 * self.channels).toNat ≠ 0 := by omega
  refine ⟨hdiv, hne, Nat.div_mul_le_self _ _, ?_⟩
  have hfr : frames_requested data.length self.channels =
      some (data.length / (2 * self.channels).toNat) := by
    rw [frames_requested_of_ne_zero _ _ (by rw [hdiv]; exact hne), hdiv]
  unfold feed_alsa
  simp only [hh, hb, fl_value_get_length, fl_value_get_uint8_list, hfr]
  by_cases h1 : dev.writei_first < 0
  · by_cases h2 : dev.recover_result < 0
    · simp [h1, h2]
    · simp [h1, h2, feed_finish]
  · simp [h1, feed_finish]

/-- The spec's example: two channels and nine bytes ask for two frames. -/
theorem feed_requests_floor_frames_witness :
    toSizeT (toInt32 (2 * stereo_session.channels)) = (2 * stereo_session.channels).toNat ∧
      (2 * stereo_session.channels).toNat ≠ 0 ∧
      nine_bytes.length / (2 * stereo_session.channels).toNat *
          (2 * stereo_session.channels).toNat ≤ nine_bytes.length ∧
      ∃ out, feed_alsa sample_lib stereo_session feed_args good_device = some out ∧
        out.alsa =
          (if good_device.writei_first < 0 then
            if good_device.recover_result < 0 then
              [.pcm_writei 1 (some nine_bytes) 2,
               .pcm_recover 1 (toInt32 good_device.writei_first)]
            else
              [.pcm_writei 1 (some nine_bytes) 2,
               .pcm_recover 1 (toInt32 good_device.writei_first),
               .pcm_writei 1 (some nine_bytes) 2]
          else [.pcm_writei 1 (some nine_bytes) 2]) ∧
        (∀ code message details, out.response = .error code message details →
          good_device.writei_first < 0 ∧ good_device.recover_result < 0) :=
  feed_requests_floor_frames sample_lib stereo_session feed_args good_device 1 nine_bytes rfl
    (by decide) (by decide) (by simp [fl_value_lookup_string, feed_args])

/-- C4, the code at the failing input: the first write fails with -32, the
recovery succeeds, the retried write fails with -32; `feed` answers
success(-32), sends the notification, and makes no third write. -/
theorem feed_retry_failure_answered_as_success :
    feed_alsa sample_lib stereo_session feed_args
        { open_result := 0, open_handle := 1, hw_params_result := 0,
          writei_first := -32, recover_result := 0, writei_retry := -32 } =
      some { response := .success (.int (-32))
             self := stereo_session
             alsa := [.pcm_writei 1 (some nine_bytes) 2, .pcm_recover 1 (-32),
                      .pcm_writei 1 (some nine_bytes) 2]
             invoked := [{ channel := 0, method := "OnFeedSamples"
                           args := .map [("remaining_frames", .int 0)] }] } := by
  rfl

/-- C5: on a configured session with the method channel set, a `feed` whose
write succeeds (the first write, or the retry after a successful recovery)
sends exactly one `OnFeedSamples` notification whose payload has
`remaining_frames` = 0, and answers success with the frame count the device
returned for that write.  No reply callback is registered for the
notification, so nothing about its delivery enters the result. -/
theorem feed_success_notifies_once (lib : Lib) (self : FlutterPcmSoundPlugin) (args : FlValue)
    (dev : Device) (h ch : Nat)
    (hh : self.handle = some h) (hch : self.channel = some ch)
    (hd : toSizeT (toInt32 (2 * self.channels)) ≠ 0)
    (hw : 0 ≤ dev.writei_first ∨
      (dev.writei_first < 0 ∧ 0 ≤ dev.recover_result ∧ 0 ≤ dev.writei_retry)) :
    ∃ out, feed_alsa lib self args dev = some out ∧
      out.invoked =
        [{ channel := ch, method := "OnFeedSamples"
           args := .map [("remaining_frames", .int 0)] }] ∧
      out.response =
        .success (.int (if dev.writei_first < 0 then dev.writei_retry else dev.writei_first)) ∧
      out.self = self := by
  unfold feed_alsa
  simp only [hh, frames_requested_of_ne_zero _ _ hd]
  rcases hw with h1 | ⟨h1, h2, _⟩
  · have h1' : ¬ dev.writei_first < 0 := by omega
    simp [h1', feed_finish, hch]
  · have h2' : ¬ dev.recover_result < 0 := by omega
    simp [h1, h2', feed_finish, hch]

/-- Nine bytes fed to the stereo session on a device that accepts 2 frames:
one notification, success(2). -/
theorem feed_success_notifies_once_witness :
    ∃ out, feed_alsa sample_lib stereo_session feed_args good_device = some out ∧
      out.invoked =
        [{ channel := 0, method := "OnFeedSamples"
           args := .map [("remaining_frames", .int 0)] }] ∧
      out.response =
        .success (.int (if good_device.writei_first < 0 then good_device.writei_retry
          else good_device.writei_first)) ∧
      out.self = stereo_session :=
  feed_success_notifies_once sample_lib stereo_session feed_args good_device 1 0 rfl rfl
    (by decide) (Or.inl (by decide))

/-- C9: a `setup` with both arguments on a session without a handle, when the
open fails or the `snd_pcm_hw_params` commit fails, answers the error
`ALSA_ERROR` whose message is `snd_strerror` of the failing call's result and
leaves the handle absent; the handle opened during the call, if there is one,
is closed exactly once and nothing else is closed. -/
theorem setup_failure_keeps_no_handle (lib : Lib) (self : FlutterPcmSoundPlugin) (args : FlValue)
    (dev : Device) (rate count : FlValue)
    (hr : fl_value_lookup_string args "sample_rate" = some rate)
    (hn : fl_value_lookup_string args "num_channels" = some count)
    (hh : self.handle = none)
    (hf : dev.open_result < 0 ∨ dev.hw_params_result < 0) :
    (setup_alsa lib self args dev).response =
        .error "ALSA_ERROR"
          (lib.snd_strerror
            (if dev.open_result < 0 then dev.open_result else dev.hw_params_result)) none ∧
      (setup_alsa lib self args dev).self.handle = none ∧
      closed_handles (setup_alsa lib self args dev).alsa =
        (if dev.open_result < 0 then [] else [dev.open_handle]) ∧
      (setup_alsa lib self args dev).invoked = [] := by
  unfold setup_alsa
  simp only [hr, hn]
  by_cases h1 : dev.open_result < 0
  · simp [h1, hh, closed_handles]
  · have h2 : dev.hw_params_result < 0 := by
      rcases hf with hf | hf
      · exact absurd hf h1
      · exact hf
    simp [h1, h2, closed_handles]

/-- A device whose parameter commit fails with -22: the opened handle 1 is
closed once and not kept. -/
theorem setup_failure_keeps_no_handle_witness :
    (setup_alsa sample_lib (flutter_pcm_sound_plugin_init stereo_session) setup_args
          { good_device with hw_params_result := -22 }).response =
        .error "ALSA_ERROR"
          (sample_lib.snd_strerror
            (if ({ good_device with hw_params_result := -22 } : Device).open_result < 0 then
              ({ good_device with hw_params_result := -22 } : Device).open_result
            else ({ good_device with hw_params_result := -22 } : Device).hw_params_result))
          none ∧
      (setup_alsa sample_lib (flutter_pcm_sound_plugin_init stereo_session) setup_args
          { good_device with hw_params_result := -22 }).self.handle = none ∧
      closed_handles
          (setup_alsa sample_lib (flutter_pcm_sound_plugin_init stereo_session) setup_args
            { good_device with hw_params_result := -22 }).alsa =
        (if ({ good_device with hw_params_result := -22 } : Device).open_result < 0 then []
          else [({ good_device with hw_params_result := -22 } : Device).open_handle]) ∧
      (setup_alsa sample_lib (flutter_pcm_sound_plugin_init stereo_session) setup_args
          { good_device with hw_params_result := -22 }).invoked = [] :=
  setup_failure_keeps_no_handle sample_lib (flutter_pcm_sound_plugin_init stereo_session)
    setup_args { good_device with hw_params_result := -22 } (.int 44100) (.int 2)
    (by simp [fl_value_lookup_string, setup_args])
    (by simp [fl_value_lookup_string, setup_args]) rfl (Or.inr (by decide))

/-- C10: on a configured session, when the first write fails and the recovery
fails (its result being an `int`), `feed` answers the error `WRITE_ERROR`
whose message is `snd_strerror` of the recovery result, makes no second write,
sends no notification and leaves the plugin (handle, sample rate, channel
count) as it was; a later `feed` on that plugin again starts with a write to
the same handle. -/
theorem feed_recovery_failure (lib : Lib) (self : FlutterPcmSoundPlugin) (args : FlValue)
    (dev : Device) (h : Nat)
    (hh : self.handle = some h)
    (hd : toSizeT (toInt32 (2 * self.channels)) ≠ 0)
    (h1 : dev.writei_first < 0) (h2 : dev.recover_result < 0)
    (hint : -2147483648 ≤ dev.recover_result) :
    feed_alsa lib self args dev =
        some { response := .error "WRITE_ERROR" (lib.snd_strerror dev.recover_result) none
               self := self
               alsa :=
                 [.pcm_writei h (fl_value_get_uint8_list (fl_value_lookup_string args "buffer"))
                    (fl_value_get_length (fl_value_lookup_string args "buffer") /
                      toSizeT (toInt32 (2 * self.channels))),
                  .pcm_recover h (toInt32 dev.writei_first)]
               invoked := [] } ∧
      ∀ (later_args : FlValue) (later_dev : Device),
        ∃ out, feed_alsa lib self later_args later_dev = some out ∧
          out.alsa.head? =
            some (.pcm_writei h
              (fl_value_get_uint8_list (fl_value_lookup_string later_args "buffer"))
              (fl_value_get_length (fl_value_lookup_string later_args "buffer") /
                toSizeT (toInt32 (2 * self.channels)))) := by
  have hr : toInt32 dev.recover_result = dev.recover_result := by
    unfold toInt32
    omega
  constructor
  · unfold feed_alsa
    simp [hh, frames_requested_of_ne_zero _ _ hd, h1, h2, hr]
  · intro later_args later_dev
    unfold feed_alsa
    simp only [hh, frames_requested_of_ne_zero _ _ hd]
    by_cases g1 : later_dev.writei_first < 0
    · by_cases g2 : later_dev.recover_result < 0
      · simp [g1, g2]
      · simp [g1, g2, feed_finish]
    · simp [g1, feed_finish]

/-- The stereo session on a device whose write fails with -32 and whose
recovery fails with -5. -/
theorem feed_recovery_failure_witness :
    feed_alsa sample_lib stereo_session feed_args
          { good_device with writei_first := -32, recover_result := -5 } =
        some { response := .error "WRITE_ERROR" (sample_lib.snd_strerror (-5)) none
               self := stereo_session
               alsa :=
                 [.pcm_writei 1
                    (fl_value_get_uint8_list (fl_value_lookup_string feed_args "buffer"))
                    (fl_value_get_length (fl_value_lookup_string feed_args "buffer") /
                      toSizeT (toInt32 (2 * stereo_session.channels))),
                  .pcm_recover 1 (toInt32 (-32))]
               invoked := [] } ∧
      ∀ (later_args : FlValue) (later_dev : Device),
        ∃ out, feed_alsa sample_lib stereo_session later_args later_dev = some out ∧
          out.alsa.head? =
            some (.pcm_writei 1
              (fl_value_get_uint8_list (fl_value_lookup_string later_args "buffer"))
              (fl_value_get_length (fl_value_lookup_string later_args "buffer") /
                toSizeT (toInt32 (2 * stereo_session.channels)))) :=
  feed_recovery_failure sample_lib stereo_session feed_args
    { good_device with writei_first := -32, recover_result := -5 } 1 rfl (by decide)
    (by decide) (by decide) (by decide)

/-- Reading one more event at the end of a history. -/
theorem latch_append (opens closes : Event → Bool) (e : Event) :
    ∀ (events : List Event) (flag : Bool),
      latch opens closes flag (events ++ [e]) =
        (if opens e then true else if closes e then false
          else latch opens closes flag events) := by
  intro events
  induction events with
  | nil => intro flag; rfl
  | cons x rest ih => intro flag; exact ih _

/-- In words: the flag read off a history is set exactly when some event of
the history opens and no later event opens or closes, that is, when nothing
has closed since the last opening event. -/
theorem latch_false_iff (opens closes : Event → Bool) (events : List Event) :
    latch opens closes false events = true ↔
      ∃ pre e post, events = pre ++ e :: post ∧ opens e = true ∧
        ∀ d ∈ post, opens d = false ∧ closes d = false := by
  induction events using List.reverseRecOn with
  | nil =>
    constructor
    · intro h; cases h
    · rintro ⟨pre, e, post, h, _⟩
      simp at h
  | append_singleton events x ih =>
    rw [latch_append]
    cases ho : opens x with
    | true =>
      simp only [if_true, true_iff]
      exact ⟨events, x, [], rfl, ho, by simp⟩
    | false =>
      have key : ∀ pre e post, events ++ [x] = pre ++ e :: post → opens e = true →
          ∃ post1, post = post1 ++ [x] ∧ events = pre ++ e :: post1 := by
        intro pre e post h he
        rcases List.eq_nil_or_concat post with hp | ⟨post1, y, hp⟩
        · subst hp
          have h2 := List.append_inj' h rfl
          have hx : x = e := by simpa using h2.2
          rw [← hx, ho] at he
          cases he
        · rw [List.concat_eq_append] at hp
          subst hp
          have h1 : events ++ [x] = (pre ++ e :: post1) ++ [y] := by simpa using h
          have h2 := List.append_inj' h1 rfl
          have hx : x = y := by simpa using h2.2
          subst hx
          exact ⟨post1, rfl, h2.1⟩
      cases hc : closes x with
      | true =>
        simp only [Bool.false_eq_true, if_false, if_true, false_iff]
        rintro ⟨pre, e, post, h, he, hpost⟩
        obtain ⟨post1, hp, _⟩ := key pre e post h he
        have := (hpost x (by simp [hp])).2
        rw [hc] at this
        cases this
      | false =>
        simp only [Bool.false_eq_true, if_false]
        rw [ih]
        constructor
        · rintro ⟨pre, e, post, h, he, hpost⟩
          refine ⟨pre, e, post ++ [x], by simp [h], he, ?_⟩
          intro d hd
          rcases List.mem_append.mp hd with hd | hd
          · exact hpost d hd
          · have : d = x := by simpa using hd
            subst this
            exact ⟨ho, hc⟩
        · rintro ⟨pre, e, post, h, he, hpost⟩
          obtain ⟨post1, hp, hev⟩ := key pre e post h he
          refine ⟨pre, e, post1, hev, he, ?_⟩
          intro d hd
          exact hpost d (by simp [hp, hd])

/-- The spec's wording of the session invariant, spelled out on a history. -/
theorem session_open_as_claimed_iff (events : List Event) :
    session_open_as_claimed events = true ↔
      ∃ pre e post, events = pre ++ e :: post ∧ setup_succeeded e = true ∧
        ∀ d ∈ post, setup_succeeded d = false ∧ release_dispatched d = false :=
  latch_false_iff setup_succeeded release_dispatched events

/-- Outside the callers' protocol: a second `setup` dispatched on an open
session overwrites handle 1 without closing it; when its parameter commit
fails it closes its own handle 2 and clears the field, so handle 1 is never
closed. -/
theorem setup_on_open_session_loses_handle :
    ∃ final events,
      run sample_lib (flutter_pcm_sound_plugin_init stereo_session)
          [⟨"setup", setup_args, good_device⟩,
           ⟨"setup", setup_args,
            { good_device with open_handle := 2, hw_params_result := -22 }⟩] =
        some (final, events) ∧
      setup_on_closed_only sample_lib (flutter_pcm_sound_plugin_init stereo_session)
          [⟨"setup", setup_args, good_device⟩,
           ⟨"setup", setup_args,
            { good_device with open_handle := 2, hw_params_result := -22 }⟩] = false ∧
      final.handle = none ∧
      events.map (fun e => closed_handles e.result.alsa) = [[], [2]] :=
  ⟨_, _, rfl, rfl, rfl, rfl⟩

end FlutterPcmSound
